import Mathlib

/-!
Shallow embedding of the geo_helpers repository (ring orientation, GeoJSON
validation, CRS resolution and geometry reprojection) and proofs about it.
-/

/-- A coordinate pair (x = longitude / easting, y = latitude / northing). -/
abbrev Coord := ℚ × ℚ

/-- Polygon payload: exterior ring and interior rings, as coordinate lists. -/
abbrev PolyData := List Coord × List (List Coord)

/-- Shapely-style geometry: a tagged variant over the eight geometry kinds.
Multi-part geometries hold the homogeneous payload of their members (as the
shapely constructors enforce); `geometryCollection` holds arbitrary child
geometries. -/
inductive Geometry where
  | point (c : Coord)
  | lineString (cs : List Coord)
  | linearRing (cs : List Coord)
  | polygon (shell : List Coord) (holes : List (List Coord))
  | multiPoint (ps : List Coord)
  | multiLineString (ls : List (List Coord))
  | multiPolygon (qs : List PolyData)
  | geometryCollection (gs : List Geometry)

/-- Python exception kinds raised by the embedded code. -/
inductive PyError where
  | typeError (msg : String)
  | valueError (msg : String)
  | indexError (msg : String)
  | keyError (msg : String)
  | invalidGeojsonError (msg : String)
  | invalidGeojsonFeatureError (msg : String)
  | invalidGeojsonGeometryError (msg : String)
  | notSupportedGeometryTypeError (msg : String)
  deriving DecidableEq, Repr

/-- Rectangular area of interest (west, south, east, north). -/
abbrev Aoi := ℚ × ℚ × ℚ × ℚ

/-- A pyproj transformer, recorded by how it was constructed:
`fromEpsg` for `Transformer.from_crs` on two EPSG-defined CRSs,
`fromParams` for a target CRS built as `CRS(proj=.., lat_1=.., lat_2=..,
lat_0=.., lon_0=..)`, and `fromEpsgAoi` for `Transformer.from_crs` with an
`area_of_interest` argument (all with `always_xy=True`). -/
inductive Transformer where
  | fromEpsg (source target : Int)
  | fromParams (source : Int) (proj : String) (lat1 lat2 lat0 lon0 : ℚ)
  | fromEpsgAoi (source target : Int) (aoi : Option Aoi)
  deriving DecidableEq, Repr

/-- The external collaborators (pyproj CRS database and shapely/GEOS), treated
as opaque oracles: datum name and projection name of an EPSG code, the UTM
catalog query, application of a transformer to a coordinate, and the centroid
of a geometry. -/
structure GeoEnv where
  datum_of : Int → String
  proj_of : Int → String
  query_utm_crs_info : String → ℚ → ℚ → ℚ → ℚ → Bool → List Int
  apply : Transformer → Coord → Coord
  centroid : Geometry → Coord

/-- `determine_utm_epsg` from src/projecting/reproject.py: look up the source
datum, query the catalog for UTM CRSs over the bounding box, raise ValueError
when the catalog returns nothing, otherwise return the first code. -/
def determine_utm_epsg (env : GeoEnv) (source_epsg : Int)
    (west_lon south_lat east_lon north_lat : ℚ) (contains : Bool) :
    Except PyError Int :=
  let datum_name := env.datum_of source_epsg
  match env.query_utm_crs_info datum_name west_lon south_lat east_lon north_lat contains with
  | [] => .error (.valueError ("No UTM CRS found for the datum " ++ datum_name ++ " and bbox"))
  | c :: _ => .ok c

/-- `is_utm_epsg` from src/projecting/reproject.py. -/
def is_utm_epsg (env : GeoEnv) (epsg : Int) : Bool :=
  env.proj_of epsg == "utm"

/-- `create_transformer` from src/projecting/reproject.py: UTM targets are
built directly from the EPSG code; any other target requires a centroid and
is built as a parametric CRS with `lat_1 = lat_2 = lat_0 = centroid.y` and
`lon_0 = centroid.x`. -/
def create_transformer (env : GeoEnv) (source_epsg target_epsg : Int)
    (centroid : Option Coord) : Except PyError Transformer :=
  if is_utm_epsg env target_epsg then
    .ok (.fromEpsg source_epsg target_epsg)
  else
    match centroid with
    | none => .error (.valueError "A centroid must be provided for non-UTM projections")
    | some c => .ok (.fromParams source_epsg (env.proj_of target_epsg) c.2 c.2 c.2 c.1)

/-- Component extraction performed by the shapely `MultiPoint` constructor:
every element must be a Point. -/
def asPoints : List Geometry → Except PyError (List Coord)
  | [] => .ok []
  | .point p :: gs => do
      let ps ← asPoints gs
      .ok (p :: ps)
  | _ :: _ => .error (.typeError "MultiPoint components must be Point geometries")

/-- Component extraction performed by the shapely `MultiLineString`
constructor: every element must be a LineString. -/
def asLines : List Geometry → Except PyError (List (List Coord))
  | [] => .ok []
  | .lineString cs :: gs => do
      let ls ← asLines gs
      .ok (cs :: ls)
  | _ :: _ => .error (.typeError "MultiLineString components must be LineString geometries")

/-- Component extraction performed by the shapely `MultiPolygon` constructor:
every element must be a Polygon. -/
def asPolys : List Geometry → Except PyError (List PolyData)
  | [] => .ok []
  | .polygon e h :: gs => do
      let qs ← asPolys gs
      .ok ((e, h) :: qs)
  | _ :: _ => .error (.typeError "MultiPolygon components must be Polygon geometries")

/-- The shapely `MultiPoint` constructor applied to a list of geometries. -/
def mkMultiPoint (gs : List Geometry) : Except PyError Geometry := do
  let ps ← asPoints gs
  .ok (.multiPoint ps)

/-- The shapely `MultiLineString` constructor applied to a list of geometries. -/
def mkMultiLineString (gs : List Geometry) : Except PyError Geometry := do
  let ls ← asLines gs
  .ok (.multiLineString ls)

/-- The shapely `MultiPolygon` constructor applied to a list of geometries. -/
def mkMultiPolygon (gs : List Geometry) : Except PyError Geometry := do
  let qs ← asPolys gs
  .ok (.multiPolygon qs)

/-- Positivity of the default `SizeOf` of a list, needed by the termination
proofs below. -/
def list_sizeOf_pos {α : Type} [SizeOf α] (l : List α) : 0 < sizeOf l := by
  cases l <;> simp_arith

/-- `_project_point` from src/projecting/reproject.py: the transformer is
created with the point itself as centroid. -/
def _project_point (env : GeoEnv) (source_epsg target_epsg : Int) (p : Coord) :
    Except PyError Geometry := do
  let t ← create_transformer env source_epsg target_epsg (some p)
  .ok (.point (env.apply t p))

/-- `_project_linestring` from src/projecting/reproject.py. -/
def _project_linestring (env : GeoEnv) (source_epsg target_epsg : Int)
    (cs : List Coord) : Except PyError Geometry := do
  let t ← create_transformer env source_epsg target_epsg
      (some (env.centroid (.lineString cs)))
  .ok (.lineString (cs.map (env.apply t)))

/-- `_project_linear_ring` from src/projecting/reproject.py. -/
def _project_linear_ring (env : GeoEnv) (source_epsg target_epsg : Int)
    (cs : List Coord) : Except PyError Geometry := do
  let t ← create_transformer env source_epsg target_epsg
      (some (env.centroid (.linearRing cs)))
  .ok (.linearRing (cs.map (env.apply t)))

/-- `_project_polygon` from src/projecting/reproject.py: one transformer per
polygon (from the polygon centroid), applied to the exterior ring and to every
interior ring. -/
def _project_polygon (env : GeoEnv) (source_epsg target_epsg : Int)
    (shell : List Coord) (holes : List (List Coord)) : Except PyError Geometry := do
  let t ← create_transformer env source_epsg target_epsg
      (some (env.centroid (.polygon shell holes)))
  .ok (.polygon (shell.map (env.apply t)) (holes.map (List.map (env.apply t))))

mutual

/-- `project_geometry_local_utm` from src/projecting/reproject.py.  The
`geom_map` dictionary contains an entry for every one of the eight geometry
classes, so for values of `Geometry` the `Unsupported geometry type` branch is
unreachable; the function then computes the centroid of the whole geometry,
resolves the UTM EPSG for it (with `contains=True`), and dispatches: simple
kinds go to the `_project_*` helpers with that target code, while the
multi-part entries recursively call `project_geometry_local_utm` on each child
geometry (ignoring the resolved code) and rebuild via the shapely
constructor. -/
def project_geometry_local_utm (env : GeoEnv) (source_epsg : Int)
    (geometry : Geometry) : Except PyError Geometry := do
  let c := env.centroid geometry
  let target_epsg ← determine_utm_epsg env source_epsg c.1 c.2 c.1 c.2 true
  match geometry with
  | .point p => _project_point env source_epsg target_epsg p
  | .lineString cs => _project_linestring env source_epsg target_epsg cs
  | .linearRing cs => _project_linear_ring env source_epsg target_epsg cs
  | .polygon e h => _project_polygon env source_epsg target_epsg e h
  | .multiPoint ps => do
      let rs ← projectEachPoint env source_epsg ps
      mkMultiPoint rs
  | .multiLineString ls => do
      let rs ← projectEachLine env source_epsg ls
      mkMultiLineString rs
  | .multiPolygon qs => do
      let rs ← projectEachPoly env source_epsg qs
      mkMultiPolygon rs
  | .geometryCollection gs => do
      let rs ← projectEachGeom env source_epsg gs
      .ok (.geometryCollection rs)
termination_by sizeOf geometry
decreasing_by all_goals (simp_wf <;> omega)

/-- The list comprehension over `mp.geoms` in the `MultiPoint` entry of
`geom_map`: each member Point is reprojected by a recursive call to
`project_geometry_local_utm`. -/
def projectEachPoint (env : GeoEnv) (source_epsg : Int) :
    List Coord → Except PyError (List Geometry)
  | [] => .ok []
  | p :: ps => do
      let r ← project_geometry_local_utm env source_epsg (.point p)
      let rs ← projectEachPoint env source_epsg ps
      .ok (r :: rs)
termination_by ps => sizeOf ps
decreasing_by all_goals (simp_wf <;> first | omega | (have hsz := list_sizeOf_pos ps; omega))

/-- The list comprehension over `mls.geoms` in the `MultiLineString` entry. -/
def projectEachLine (env : GeoEnv) (source_epsg : Int) :
    List (List Coord) → Except PyError (List Geometry)
  | [] => .ok []
  | cs :: ls => do
      let r ← project_geometry_local_utm env source_epsg (.lineString cs)
      let rs ← projectEachLine env source_epsg ls
      .ok (r :: rs)
termination_by ls => sizeOf ls
decreasing_by all_goals (simp_wf <;> first | omega | (have hsz := list_sizeOf_pos ls; omega))

/-- The list comprehension over `mp.geoms` in the `MultiPolygon` entry. -/
def projectEachPoly (env : GeoEnv) (source_epsg : Int) :
    List PolyData → Except PyError (List Geometry)
  | [] => .ok []
  | (e, h) :: qs => do
      let r ← project_geometry_local_utm env source_epsg (.polygon e h)
      let rs ← projectEachPoly env source_epsg qs
      .ok (r :: rs)
termination_by qs => sizeOf qs
decreasing_by all_goals (simp_wf <;> first | omega | (have hsz := list_sizeOf_pos qs; omega))

/-- The list comprehension over `gc.geoms` in the `GeometryCollection` entry. -/
def projectEachGeom (env : GeoEnv) (source_epsg : Int) :
    List Geometry → Except PyError (List Geometry)
  | [] => .ok []
  | g :: gs => do
      let r ← project_geometry_local_utm env source_epsg g
      let rs ← projectEachGeom env source_epsg gs
      .ok (r :: rs)
termination_by gs => sizeOf gs
decreasing_by all_goals (simp_wf <;> omega)

end

/-- A sample environment used for concrete evaluations: a catalog that always
returns UTM zone 32632, EPSG 32632 being the only UTM code, and an identity
transform. -/
def sampleEnv : GeoEnv where
  datum_of := fun _ => "WGS 84"
  proj_of := fun e => if e == 32632 then "utm" else "laea"
  query_utm_crs_info := fun _ _ _ _ _ _ => [32632]
  apply := fun _ p => p
  centroid := fun _ => (8, 50)

/-- `project_geometry_equal_area` from src/projecting/reproject.py (lines
142-175).  Its `geom_map` has an entry for every one of the eight geometry
classes, so the `Unsupported geometry type` branch is unreachable for values
of `Geometry`; every entry is a callable of three required positional
parameters (`_project_point`, `_project_linestring`, `_project_linear_ring`
and `_project_polygon` take `(geometry, source_epsg, target_epsg)`, and each
lambda takes `(geom, source_epsg, _)`), while the final dispatch on line 175
is `geom_map[type(geometry)](geometry, source_epsg)` with only two positional
arguments.  Python therefore raises `TypeError: missing 1 required positional
argument` before any projection work happens, for every input geometry. -/
def project_geometry_equal_area (geometry : Geometry)
    (source_epsg target_epsg : Int) : Except PyError Geometry :=
  .error (.typeError "missing 1 required positional argument")

/-- `determine_utm_epsg` from src/projecting/project.py: queries the catalog
for the "WGS 84" datum on the degenerate bounding box of a single point
(`contains` is not passed, so pyproj's default `contains=False` applies) and
returns `utm_crs_list[0]` without checking whether the list is empty; an
empty catalog answer therefore raises IndexError. -/
def project_py_determine_utm_epsg (env : GeoEnv) (lon lat : ℚ) :
    Except PyError Int :=
  match env.query_utm_crs_info "WGS 84" lon lat lon lat false with
  | [] => .error (.indexError "list index out of range")
  | c :: _ => .ok c

/-- `create_transformer` from src/projecting/project.py: both CRSs come
directly from their EPSG codes; a centroid, when given, only becomes the
transformer's `area_of_interest` (its degenerate bounding box).  No error is
ever raised. -/
def project_py_create_transformer (source_epsg target_epsg : Int)
    (centroid : Option Coord) : Except PyError Transformer :=
  .ok (.fromEpsgAoi source_epsg target_epsg
    (centroid.map fun c => (c.1, c.2, c.1, c.2)))

/-- `_project_point_local_utm` from src/projecting/project.py. -/
def _project_point_local_utm (env : GeoEnv) (source_epsg : Int) (p : Coord) :
    Except PyError Geometry := do
  let target_epsg ← project_py_determine_utm_epsg env p.1 p.2
  let t ← project_py_create_transformer source_epsg target_epsg none
  .ok (.point (env.apply t p))

/-- `_project_linestring_local_utm` from src/projecting/project.py. -/
def _project_linestring_local_utm (env : GeoEnv) (source_epsg : Int)
    (cs : List Coord) : Except PyError Geometry := do
  let c := env.centroid (.lineString cs)
  let target_epsg ← project_py_determine_utm_epsg env c.1 c.2
  let t ← project_py_create_transformer source_epsg target_epsg none
  .ok (.lineString (cs.map (env.apply t)))

/-- `_project_polygon_local_utm` from src/projecting/project.py. -/
def _project_polygon_local_utm (env : GeoEnv) (source_epsg : Int)
    (shell : List Coord) (holes : List (List Coord)) :
    Except PyError Geometry := do
  let c := env.centroid (.polygon shell holes)
  let target_epsg ← project_py_determine_utm_epsg env c.1 c.2
  let t ← project_py_create_transformer source_epsg target_epsg none
  .ok (.polygon (shell.map (env.apply t)) (holes.map (List.map (env.apply t))))

/-- The list comprehension in the `MultiLineString` entry of project.py's
`geom_map`: each member goes through `_project_linestring_local_utm`. -/
def projectPyEachLine (env : GeoEnv) (source_epsg : Int) :
    List (List Coord) → Except PyError (List Geometry)
  | [] => .ok []
  | cs :: ls => do
      let r ← _project_linestring_local_utm env source_epsg cs
      let rs ← projectPyEachLine env source_epsg ls
      .ok (r :: rs)

/-- The list comprehension in the `MultiPolygon` entry of project.py's
`geom_map`: each member goes through `_project_polygon_local_utm`. -/
def projectPyEachPoly (env : GeoEnv) (source_epsg : Int) :
    List PolyData → Except PyError (List Geometry)
  | [] => .ok []
  | (e, h) :: qs => do
      let r ← _project_polygon_local_utm env source_epsg e h
      let rs ← projectPyEachPoly env source_epsg qs
      .ok (r :: rs)

mutual

/-- `project_geometry_local_utm` from src/projecting/project.py.  Its
`geom_map` has entries only for Point, LineString, Polygon, MultiLineString,
MultiPolygon and GeometryCollection, so LinearRing and MultiPoint hit the
`Unsupported geometry type` TypeError.  There is no whole-geometry UTM
resolution: each helper resolves its own zone. -/
def project_py_geometry_local_utm (env : GeoEnv) (source_epsg : Int)
    (geometry : Geometry) : Except PyError Geometry :=
  match geometry with
  | .point p => _project_point_local_utm env source_epsg p
  | .lineString cs => _project_linestring_local_utm env source_epsg cs
  | .polygon e h => _project_polygon_local_utm env source_epsg e h
  | .multiLineString ls => do
      let rs ← projectPyEachLine env source_epsg ls
      mkMultiLineString rs
  | .multiPolygon qs => do
      let rs ← projectPyEachPoly env source_epsg qs
      mkMultiPolygon rs
  | .geometryCollection gs => do
      let rs ← projectPyEachGeom env source_epsg gs
      .ok (.geometryCollection rs)
  | .linearRing _ => .error (.typeError "Unsupported geometry type: LinearRing")
  | .multiPoint _ => .error (.typeError "Unsupported geometry type: MultiPoint")
termination_by sizeOf geometry
decreasing_by all_goals (simp_wf <;> omega)

/-- The list comprehension in the `GeometryCollection` entry of project.py's
`geom_map`: each child is reprojected by a recursive call to
`project_geometry_local_utm`. -/
def projectPyEachGeom (env : GeoEnv) (source_epsg : Int) :
    List Geometry → Except PyError (List Geometry)
  | [] => .ok []
  | g :: gs => do
      let r ← project_py_geometry_local_utm env source_epsg g
      let rs ← projectPyEachGeom env source_epsg gs
      .ok (r :: rs)
termination_by gs => sizeOf gs
decreasing_by all_goals (simp_wf <;> omega)

end

/-- Twice the signed (shoelace) area of a coordinate sequence: the sum of
`x_i * y_(i+1) - x_(i+1) * y_i` over consecutive pairs.  For a closed ring
(first coordinate repeated at the end) this is twice its signed area,
positive for counter-clockwise rings. -/
def signed_area2 : List Coord → ℚ
  | a :: b :: rest => (a.1 * b.2 - b.1 * a.2) + signed_area2 (b :: rest)
  | _ => 0

/-- The shapely `LinearRing.is_ccw` property: the ring's signed area is
positive. -/
def is_ccw (ring : List Coord) : Bool :=
  decide (0 < signed_area2 ring)

/-- A shapely polygon as used by src/ccw.py: the exterior ring's coordinate
sequence and the interior rings' coordinate sequences (every ring closed,
first coordinate repeated at the end). -/
structure ShapelyPolygon where
  exterior : List Coord
  interiors : List (List Coord)
  deriving DecidableEq, Repr

/-- `_force_exterior_ccw` from src/ccw.py: if the exterior ring is already
counter-clockwise the polygon is returned unchanged, otherwise the polygon is
rebuilt with the exterior coordinate sequence reversed (`coords[::-1]`) and
the interiors unchanged. -/
def _force_exterior_ccw (polygon : ShapelyPolygon) : ShapelyPolygon :=
  if is_ccw polygon.exterior then
    polygon
  else
    { exterior := polygon.exterior.reverse, interiors := polygon.interiors }

/-- `_force_interior_cw` from src/ccw.py: if no interior ring is
counter-clockwise the polygon is returned unchanged, otherwise the polygon is
rebuilt with EVERY interior ring's coordinate sequence reversed
(`[interior.coords[::-1] for interior in polygon.interiors]`). -/
def _force_interior_cw (polygon : ShapelyPolygon) : ShapelyPolygon :=
  if polygon.interiors.all fun interior => !(is_ccw interior) then
    polygon
  else
    { exterior := polygon.exterior, interiors := polygon.interiors.map List.reverse }

/-- `force_polygon_ccw` from src/ccw.py. -/
def force_polygon_ccw (polygon : ShapelyPolygon) : ShapelyPolygon :=
  _force_interior_cw (_force_exterior_ccw polygon)

/-- A polygon whose exterior ring is counter-clockwise and whose interior
rings mix windings: the first hole is clockwise (signed area -2), the second
hole is counter-clockwise (signed area +2). -/
def mixedHolePolygon : ShapelyPolygon where
  exterior := [(0, 0), (10, 0), (10, 10), (0, 10), (0, 0)]
  interiors :=
    [[(1, 1), (1, 2), (2, 2), (2, 1), (1, 1)],
     [(3, 3), (4, 3), (4, 4), (3, 4), (3, 3)]]

/-- A Python value as found in parsed GeoJSON `coordinates` members: a
number, a string, or an array of values. -/
inductive PyVal where
  | num (q : ℚ)
  | str (s : String)
  | list (xs : List PyVal)

/-- Python truthiness of a `PyVal`: `0`, `""` and `[]` are falsy. -/
def PyVal.falsy : PyVal → Bool
  | .num q => q == 0
  | .str s => s == ""
  | .list xs => xs.isEmpty

/-- `isinstance(v, list)`. -/
def PyVal.isList : PyVal → Bool
  | .list _ => true
  | _ => false

/-- A key of a Python dictionary in src/geo_helper/geojson/geojson.py's
`geometry_validation_map`: either a string, or the bound `__str__` method
object of a `GeometryType` enum member (which is what the expression
`GeometryType.POINT.__str__` evaluates to - a method-wrapper object, not a
string, so it never compares equal to any string). -/
inductive PyDictKey where
  | strKey (s : String)
  | methodKey (enumMember : String)
  deriving DecidableEq, Repr

/-- Python `==` on dictionary keys: two strings compare by content, two bound
methods compare by their objects, and a string never equals a method
object. -/
def PyDictKey.pyEq : PyDictKey → PyDictKey → Bool
  | .strKey a, .strKey b => a == b
  | .methodKey a, .methodKey b => a == b
  | _, _ => false

/-- The keys of `geometry_validation_map` in `validate_geojson_geometry`
(src/geo_helper/geojson/geojson.py lines 150-157): the dictionary is written
`{GeometryType.POINT.__str__: _validate_point_coordinates, ...}`, so each key
is the bound `__str__` method of an enum member, not a string. -/
def geometry_validation_map_keys : List PyDictKey :=
  [.methodKey "POINT", .methodKey "MULTIPOINT", .methodKey "LINESTRING",
   .methodKey "MULTILINESTRING", .methodKey "POLYGON", .methodKey "MULTIPOLYGON"]

/-- A parsed GeoJSON geometry object as consumed by
`validate_geojson_geometry`: the results of `geometry.get('type')` and
`geometry.get('coordinates')`. -/
structure GeojsonGeometry where
  type? : Option String
  coordinates? : Option PyVal

/-- `validate_geojson_geometry` from src/geo_helper/geojson/geojson.py
(lines 141-165).  After the falsiness checks on `type` and `coordinates`, the
membership test `geometry_type.lower() not in geometry_validation_map`
compares the lowercased type string against the bound-method keys of
`geometry_validation_map`; a string never equals a method object, so the test
is true for every type string and `NotSupportedGeometryTypeError` is raised.
Were that branch ever passed, the subscript `geometry_validation_map[geometry_type]`
would look up the raw string among the same method-object keys and raise
KeyError, so no `_validate_*_coordinates` function is ever called. -/
def validate_geojson_geometry (geometry : GeojsonGeometry) :
    Except PyError GeojsonGeometry :=
  match geometry.type? with
  | none => .error (.invalidGeojsonGeometryError "No geometry type found")
  | some geometry_type =>
    if geometry_type == "" then
      .error (.invalidGeojsonGeometryError "No geometry type found")
    else
      match geometry.coordinates? with
      | none => .error (.invalidGeojsonGeometryError "No coordinates found")
      | some coordinates =>
        if coordinates.falsy || !coordinates.isList then
          .error (.invalidGeojsonGeometryError "No coordinates found")
        else
          if !(geometry_validation_map_keys.any
              fun k => PyDictKey.pyEq (.strKey geometry_type.toLower) k) then
            .error (.notSupportedGeometryTypeError ("Invalid geometry type: " ++ geometry_type))
          else
            .error (.keyError geometry_type)

/-- `_validate_point_coordinates` from src/geo_helper/geojson/geojson.py. -/
def _validate_point_coordinates (coordinates : List ℚ) : Except PyError Unit :=
  if coordinates.length ≠ 2 then
    .error (.invalidGeojsonGeometryError "Point must have 2 coordinates")
  else
    .ok ()

/-- `_validate_linestring_coordinates` from src/geo_helper/geojson/geojson.py. -/
def _validate_linestring_coordinates (coordinates : List (List ℚ)) :
    Except PyError Unit :=
  if coordinates.length < 2 then
    .error (.invalidGeojsonGeometryError "LineString must have at least 2 coordinates")
  else
    coordinates.forM fun point => _validate_point_coordinates point

/-- `_validate_polygon_coordinates` from src/geo_helper/geojson/geojson.py:
all rings must have at least 4 coordinate pairs (checked first), and every
ring's first pair must equal its last pair. -/
def _validate_polygon_coordinates (coordinates : List (List (List ℚ))) :
    Except PyError Unit :=
  let lengths := coordinates.all fun elem => decide (4 ≤ elem.length)
  if lengths == false then
    .error (.invalidGeojsonGeometryError "Polygon must have at least 4 coordinates")
  else
    let isring := coordinates.all fun elem => elem.head? == elem.getLast?
    if isring == false then
      .error (.invalidGeojsonGeometryError "Polygon must be closed")
    else
      .ok ()

/-- `_validate_multipolygon_coordinates` from
src/geo_helper/geojson/geojson.py. -/
def _validate_multipolygon_coordinates
    (coordinates : List (List (List (List ℚ)))) : Except PyError Unit :=
  coordinates.forM fun polygon => _validate_polygon_coordinates polygon

/-- Planar area of a polygon as computed by GEOS: half the absolute shoelace
sum of the exterior ring minus the areas of the holes. -/
def polygon_area (shell : List Coord) (holes : List (List Coord)) : ℚ :=
  |signed_area2 shell| / 2 - (holes.map fun h => |signed_area2 h| / 2).sum

mutual

/-- Models the external shapely/GEOS `geometry.area` property used by
src/geo_helper/area.py: planar area of polygonal components, exactly `0` for
puntal and lineal geometries, and the sum of member areas for multi-polygons
and collections. -/
def shapely_area : Geometry → ℚ
  | .point _ => 0
  | .lineString _ => 0
  | .linearRing _ => 0
  | .polygon shell holes => polygon_area shell holes
  | .multiPoint _ => 0
  | .multiLineString _ => 0
  | .multiPolygon qs => (qs.map fun q => polygon_area q.1 q.2).sum
  | .geometryCollection gs => shapely_area_sum gs
termination_by g => sizeOf g
decreasing_by all_goals (simp_wf <;> omega)

/-- Sum of the areas of a collection's members. -/
def shapely_area_sum : List Geometry → ℚ
  | [] => 0
  | g :: gs => shapely_area g + shapely_area_sum gs
termination_by gs => sizeOf gs
decreasing_by all_goals (simp_wf <;> omega)

end

/-- Effect-free elementwise traversal used by the spec-modelled reprojection
below. -/
def mapE {α β : Type} (f : α → Except PyError β) : List α → Except PyError (List β)
  | [] => .ok []
  | a :: as => do
      let b ← f a
      let bs ← mapE f as
      .ok (b :: bs)

mutual

/-- Modelled from the spec: the fixed-target path of `reproject_geometry`
from src/geo_helper/reproject.py, which src/geo_helper/area.py imports but
which is absent from the sources.  Per spec section 4.5 (and the repository
test asserting that `determine_utm_epsg` is never called on this path), one
transformer from the source EPSG to the fixed target EPSG is applied to every
coordinate, rebuilding the geometry tree with identical structure and
ordering; no UTM resolution and no failure occurs. -/
def reproject_geometry (env : GeoEnv) (source_epsg target_epsg : Int) :
    Geometry → Geometry
  | .point p => .point (env.apply (.fromEpsg source_epsg target_epsg) p)
  | .lineString cs => .lineString (cs.map (env.apply (.fromEpsg source_epsg target_epsg)))
  | .linearRing cs => .linearRing (cs.map (env.apply (.fromEpsg source_epsg target_epsg)))
  | .polygon shell holes =>
      .polygon (shell.map (env.apply (.fromEpsg source_epsg target_epsg)))
        (holes.map (List.map (env.apply (.fromEpsg source_epsg target_epsg))))
  | .multiPoint ps => .multiPoint (ps.map (env.apply (.fromEpsg source_epsg target_epsg)))
  | .multiLineString ls =>
      .multiLineString (ls.map (List.map (env.apply (.fromEpsg source_epsg target_epsg))))
  | .multiPolygon qs =>
      .multiPolygon (qs.map fun q =>
        (q.1.map (env.apply (.fromEpsg source_epsg target_epsg)),
         q.2.map (List.map (env.apply (.fromEpsg source_epsg target_epsg)))))
  | .geometryCollection gs =>
      .geometryCollection (reprojectEach env source_epsg target_epsg gs)
termination_by g => sizeOf g
decreasing_by all_goals (simp_wf <;> omega)

/-- Modelled from the spec: the traversal of a collection's children by the
fixed-target `reproject_geometry`. -/
def reprojectEach (env : GeoEnv) (source_epsg target_epsg : Int) :
    List Geometry → List Geometry
  | [] => []
  | g :: gs =>
      reproject_geometry env source_epsg target_epsg g ::
        reprojectEach env source_epsg target_epsg gs
termination_by gs => sizeOf gs
decreasing_by all_goals (simp_wf <;> omega)

end

/-- Modelled from the spec: the per-leaf UTM resolution of
`reproject_geometry_local_utm` (spec section 4.5) applied to a Point leaf:
the centroid of a Point is the point itself, its degenerate bounding box is
resolved to a UTM zone, and the resulting transformer is applied. -/
def reproject_point_local_utm (env : GeoEnv) (source_epsg : Int) (p : Coord) :
    Except PyError Coord := do
  let target_epsg ← determine_utm_epsg env source_epsg p.1 p.2 p.1 p.2 true
  .ok (env.apply (.fromEpsg source_epsg target_epsg) p)

/-- Modelled from the spec: a LineString (or LinearRing) leaf of
`reproject_geometry_local_utm`: resolve the UTM zone of the line's centroid
and transform every coordinate with it. -/
def reproject_line_local_utm (env : GeoEnv) (source_epsg : Int)
    (cs : List Coord) : Except PyError (List Coord) := do
  let c := env.centroid (.lineString cs)
  let target_epsg ← determine_utm_epsg env source_epsg c.1 c.2 c.1 c.2 true
  .ok (cs.map (env.apply (.fromEpsg source_epsg target_epsg)))

/-- Modelled from the spec: a Polygon leaf of `reproject_geometry_local_utm`:
one UTM zone from the polygon's centroid, the same transformer applied to the
exterior ring and to every hole. -/
def reproject_poly_local_utm (env : GeoEnv) (source_epsg : Int)
    (q : PolyData) : Except PyError PolyData := do
  let c := env.centroid (.polygon q.1 q.2)
  let target_epsg ← determine_utm_epsg env source_epsg c.1 c.2 c.1 c.2 true
  .ok (q.1.map (env.apply (.fromEpsg source_epsg target_epsg)),
       q.2.map (List.map (env.apply (.fromEpsg source_epsg target_epsg))))

mutual

/-- Modelled from the spec: `reproject_geometry_local_utm` from
src/geo_helper/reproject.py, which src/geo_helper/area.py imports but which
is absent from the sources.  Per spec section 4.5 and the repository tests
(one `determine_utm_epsg` call per leaf), every leaf resolves its own UTM
zone from its centroid; multi-part geometries and collections reproject each
child independently; any resolution failure propagates and aborts the whole
call. -/
def reproject_geometry_local_utm (env : GeoEnv) (source_epsg : Int) :
    Geometry → Except PyError Geometry
  | .point p => do
      let r ← reproject_point_local_utm env source_epsg p
      .ok (.point r)
  | .lineString cs => do
      let r ← reproject_line_local_utm env source_epsg cs
      .ok (.lineString r)
  | .linearRing cs => do
      let r ← reproject_line_local_utm env source_epsg cs
      .ok (.linearRing r)
  | .polygon shell holes => do
      let r ← reproject_poly_local_utm env source_epsg (shell, holes)
      .ok (.polygon r.1 r.2)
  | .multiPoint ps => do
      let rs ← mapE (reproject_point_local_utm env source_epsg) ps
      .ok (.multiPoint rs)
  | .multiLineString ls => do
      let rs ← mapE (reproject_line_local_utm env source_epsg) ls
      .ok (.multiLineString rs)
  | .multiPolygon qs => do
      let rs ← mapE (reproject_poly_local_utm env source_epsg) qs
      .ok (.multiPolygon rs)
  | .geometryCollection gs => do
      let rs ← reprojectEachLocalUtm env source_epsg gs
      .ok (.geometryCollection rs)
termination_by g => sizeOf g
decreasing_by all_goals (simp_wf <;> omega)

/-- Modelled from the spec: the traversal of a collection's children by
`reproject_geometry_local_utm`. -/
def reprojectEachLocalUtm (env : GeoEnv) (source_epsg : Int) :
    List Geometry → Except PyError (List Geometry)
  | [] => .ok []
  | g :: gs => do
      let r ← reproject_geometry_local_utm env source_epsg g
      let rs ← reprojectEachLocalUtm env source_epsg gs
      .ok (r :: rs)
termination_by gs => sizeOf gs
decreasing_by all_goals (simp_wf <;> omega)

end

/-- `calculate_area_geometry` from src/geo_helper/area.py: reproject to the
fixed target (source default 4326, target default 9822) and report the planar
area divided by 1e6. -/
def calculate_area_geometry (env : GeoEnv) (geometry : Geometry)
    (source_epsg target_epsg : Int) : ℚ :=
  shapely_area (reproject_geometry env source_epsg target_epsg geometry) / 1000000

/-- `calculate_area_geometry_local_utm` from src/geo_helper/area.py:
reproject to the local UTM zone (source default 4326) and report the planar
area divided by 1e6. -/
def calculate_area_geometry_local_utm (env : GeoEnv) (geometry : Geometry)
    (source_epsg : Int) : Except PyError ℚ := do
  let projected_geom ← reproject_geometry_local_utm env source_epsg geometry
  .ok (shapely_area projected_geom / 1000000)

/-- The four geometry kinds the spec calls zero-area kinds. -/
def Geometry.zero_area_kind : Geometry → Bool
  | .point _ => true
  | .lineString _ => true
  | .multiPoint _ => true
  | .multiLineString _ => true
  | _ => false

/-- The four multi-part kinds dispatched through recursion on children. -/
def Geometry.is_multi_part : Geometry → Bool
  | .multiPoint _ => true
  | .multiLineString _ => true
  | .multiPolygon _ => true
  | .geometryCollection _ => true
  | _ => false

/-- The child geometries of a multi-part geometry (the elements of
`geometry.geoms` in shapely). -/
def Geometry.child_geoms : Geometry → List Geometry
  | .multiPoint ps => ps.map Geometry.point
  | .multiLineString ls => ls.map Geometry.lineString
  | .multiPolygon qs => qs.map fun q => Geometry.polygon q.1 q.2
  | .geometryCollection gs => gs
  | _ => []

/-- An environment whose catalog finds no UTM CRS for any bounding box whose
south latitude is 84 or higher (the polar caps, as for the real catalog) and
otherwise answers zone 32632; the centroid oracle places any multi-point at
the north pole and is the identity on points. -/
def poleEnv : GeoEnv where
  datum_of := fun _ => "WGS 84"
  proj_of := fun e => if e == 32632 then "utm" else "laea"
  query_utm_crs_info := fun _ _ s _ _ _ => if 84 ≤ s then [] else [32632]
  apply := fun _ p => p
  centroid := fun g =>
    match g with
    | .point p => p
    | .multiPoint _ => (0, 90)
    | _ => (0, 0)

/-- A GeoJSON Polygon geometry object with one ring of four coordinate pairs
whose first pair `[0, 0]` differs from its last pair `[0, 1]`. -/
def unclosedPolygonGeometry : GeojsonGeometry where
  type? := some "Polygon"
  coordinates? := some (.list [.list
    [.list [.num 0, .num 0], .list [.num 1, .num 0],
     .list [.num 1, .num 1], .list [.num 0, .num 1]]])

/-- A GeoJSON Point geometry object with the valid coordinates `[1, 2]`. -/
def validPointGeometry : GeojsonGeometry where
  type? := some "Point"
  coordinates? := some (.list [.num 1, .num 2])

/-- A two-member MultiPolygon payload used as a concrete witness. -/
def twoPolyPayload : List PolyData :=
  [([(0, 0), (1, 0), (0, 1), (0, 0)], []),
   ([(5, 5), (6, 5), (5, 6), (5, 5)], [])]

/-- C1: the claim says both dispatchers preserve a GeometryCollection's
children; the equal-area dispatcher `project_geometry_equal_area` of
src/projecting/reproject.py instead raises TypeError on every input because
its dispatch passes two positional arguments to three-parameter handlers.
Evaluated here on a GeometryCollection of one Point child. -/
theorem project_geometry_equal_area_always_raises :
    project_geometry_equal_area (.geometryCollection [.point (8, 50)]) 4326 3857 =
      .error (.typeError "missing 1 required positional argument") := rfl

/-- C2: on a Polygon geometry whose ring is not closed, the validator raises
`NotSupportedGeometryTypeError` (because the validation map's keys are bound
`__str__` methods, never equal to the lowercased type string), not the
ring-specific `InvalidGeojsonGeometryError` the claim describes. -/
theorem validate_geojson_geometry_unclosed_polygon_raises_not_supported :
    validate_geojson_geometry unclosedPolygonGeometry =
      .error (.notSupportedGeometryTypeError "Invalid geometry type: Polygon") := rfl

/-- C3: a Point geometry with valid coordinates also raises
`NotSupportedGeometryTypeError`, so the error is not reserved for the
unsupported type strings: the claimed equivalence fails for every supported
type. -/
theorem validate_geojson_geometry_valid_point_raises_not_supported :
    validate_geojson_geometry validPointGeometry =
      .error (.notSupportedGeometryTypeError "Invalid geometry type: Point") := rfl

/-- C4: `force_polygon_ccw` on the mixed-winding polygon reverses both holes,
so the formerly clockwise first hole comes out counter-clockwise: the result
does not have all interior rings clockwise. -/
theorem force_polygon_ccw_mixed_holes_not_all_cw :
    (force_polygon_ccw mixedHolePolygon).interiors.map is_ccw = [true, false] := by
  norm_num [force_polygon_ccw, _force_exterior_ccw, _force_interior_cw, is_ccw,
    signed_area2, mixedHolePolygon]

/-- C5: applying `force_polygon_ccw` twice to the mixed-winding polygon
reverses the holes back, so the second application is not a no-op. -/
theorem force_polygon_ccw_not_idempotent :
    force_polygon_ccw (force_polygon_ccw mixedHolePolygon) ≠
      force_polygon_ccw mixedHolePolygon := by
  norm_num [force_polygon_ccw, _force_exterior_ccw, _force_interior_cw, is_ccw,
    signed_area2, mixedHolePolygon]

/-- C6: at the north pole the catalog returns no UTM CRS and project.py's
`determine_utm_epsg` raises IndexError (from `utm_crs_list[0]`), not the
NoApplicableCrs-kind ValueError the claim describes. -/
theorem project_py_determine_utm_epsg_pole_raises_index_error :
    project_py_determine_utm_epsg poleEnv 0 90 =
      .error (.indexError "list index out of range") := by
  simp only [project_py_determine_utm_epsg, poleEnv]
  norm_num

/-- Supporting fact: the reproject.py variant of `determine_utm_epsg` raises
the NoApplicableCrs-kind ValueError whenever the catalog returns no
candidate. -/
theorem determine_utm_epsg_empty_catalog_value_error (env : GeoEnv)
    (source_epsg : Int) (w s e n : ℚ) (contains : Bool)
    (h : env.query_utm_crs_info (env.datum_of source_epsg) w s e n contains = []) :
    determine_utm_epsg env source_epsg w s e n contains =
      .error (.valueError ("No UTM CRS found for the datum " ++
        env.datum_of source_epsg ++ " and bbox")) := by
  simp [determine_utm_epsg, h]

/-- C7 (amended): for a non-UTM ("parametric") target, reproject.py's
`create_transformer` raises the MissingCentroid-kind ValueError when no
centroid is given and otherwise centers the target projection on the
centroid's longitude/latitude; project.py's `create_transformer` never
requires a centroid - it builds the target directly from the EPSG code and
uses a centroid only as the transformer's area of interest. -/
theorem create_transformer_centroid_contract (env : GeoEnv)
    (source_epsg target_epsg : Int)
    (h : is_utm_epsg env target_epsg = false) :
    create_transformer env source_epsg target_epsg none =
      .error (.valueError "A centroid must be provided for non-UTM projections") ∧
    (∀ c : Coord, create_transformer env source_epsg target_epsg (some c) =
      .ok (.fromParams source_epsg (env.proj_of target_epsg) c.2 c.2 c.2 c.1)) ∧
    (∀ c : Option Coord, project_py_create_transformer source_epsg target_epsg c =
      .ok (.fromEpsgAoi source_epsg target_epsg
        (c.map fun p => (p.1, p.2, p.1, p.2)))) := by
  refine ⟨?_, ?_, ?_⟩ <;>
    simp [create_transformer, project_py_create_transformer, h]

/-- C7 witness: concrete instance of the amended claim at EPSG 3035, which
`poleEnv` treats as non-UTM. -/
theorem create_transformer_centroid_contract_witness :
    is_utm_epsg poleEnv 3035 = false ∧
    create_transformer poleEnv 4326 3035 none =
      .error (.valueError "A centroid must be provided for non-UTM projections") := by
  refine ⟨by rfl, ?_⟩
  exact (create_transformer_centroid_contract poleEnv 4326 3035 (by rfl)).1

/-- C7 counterexample: with the non-UTM target 3035 and no centroid,
project.py's `create_transformer` returns a transformer instead of raising
the MissingCentroid-kind error the claim asserts. -/
theorem project_py_create_transformer_none_ok :
    is_utm_epsg poleEnv 3035 = false ∧
    project_py_create_transformer 4326 3035 none =
      .ok (.fromEpsgAoi 4326 3035 none) := ⟨rfl, rfl⟩

/-- C10: for every multi-part geometry, reproject.py's
`project_geometry_local_utm` resolves a UTM zone for the centroid of the
whole geometry before dispatching, so when that resolution fails the whole
call fails with that error - even when every child's own centroid resolves
(hypothesis `hc`, unused by the dispatch, which ignores the resolved code in
its multi-part branches). -/
theorem local_utm_whole_centroid_resolution_gates_multi (env : GeoEnv)
    (source_epsg : Int) (g : Geometry) (err : PyError)
    (hm : g.is_multi_part = true)
    (hc : ∀ c ∈ g.child_geoms,
      (determine_utm_epsg env source_epsg (env.centroid c).1 (env.centroid c).2
        (env.centroid c).1 (env.centroid c).2 true).isOk = true)
    (he : determine_utm_epsg env source_epsg (env.centroid g).1 (env.centroid g).2
      (env.centroid g).1 (env.centroid g).2 true = .error err) :
    project_geometry_local_utm env source_epsg g = .error err := by
  cases g <;>
    simp_all [project_geometry_local_utm, Geometry.is_multi_part,
      Bind.bind, Except.bind]

/-- C10 witness: a MultiPoint of two points away from the pole whose combined
centroid lies at the north pole; each child's centroid resolves, but the
whole call raises the no-UTM-zone ValueError. -/
theorem local_utm_whole_centroid_resolution_gates_multi_witness :
    project_geometry_local_utm poleEnv 4326 (.multiPoint [(0, 0), (1, 1)]) =
      .error (.valueError "No UTM CRS found for the datum WGS 84 and bbox") := by
  apply local_utm_whole_centroid_resolution_gates_multi
  · rfl
  · intro c hcm
    simp only [Geometry.child_geoms, List.map_cons, List.map_nil, List.mem_cons,
      List.not_mem_nil, or_false] at hcm
    rcases hcm with rfl | rfl <;>
      (simp only [determine_utm_epsg, poleEnv]; norm_num [Except.isOk, Except.toBool])
  · simp only [determine_utm_epsg, poleEnv]
    norm_num
    rfl

/-- If `f` succeeds on every element, `mapE f` succeeds on the list. -/
theorem mapE_ok_of_forall {α β : Type} (f : α → Except PyError β)
    (as : List α) (h : ∀ a ∈ as, ∃ b, f a = .ok b) :
    ∃ bs, mapE f as = .ok bs := by
  induction as with
  | nil => exact ⟨[], rfl⟩
  | cons a as ih =>
    obtain ⟨b, hb⟩ := h a (by simp)
    obtain ⟨bs, hbs⟩ := ih fun x hx => h x (by simp [hx])
    exact ⟨b :: bs, by simp [mapE, hb, hbs, Bind.bind, Except.bind]⟩

/-- When every UTM resolution in `env` succeeds, reprojecting a point leaf
succeeds. -/
theorem reproject_point_local_utm_ok (env : GeoEnv) (source_epsg : Int)
    (p : Coord)
    (hres : ∀ w s e n : ℚ,
      (determine_utm_epsg env source_epsg w s e n true).isOk = true) :
    ∃ r, reproject_point_local_utm env source_epsg p = .ok r := by
  have h := hres p.1 p.2 p.1 p.2
  cases hdet : determine_utm_epsg env source_epsg p.1 p.2 p.1 p.2 true with
  | error e => rw [hdet] at h; simp [Except.isOk, Except.toBool] at h
  | ok t =>
    exact ⟨env.apply (.fromEpsg source_epsg t) p,
      by simp [reproject_point_local_utm, hdet, Bind.bind, Except.bind]⟩

/-- When every UTM resolution in `env` succeeds, reprojecting a line leaf
succeeds. -/
theorem reproject_line_local_utm_ok (env : GeoEnv) (source_epsg : Int)
    (cs : List Coord)
    (hres : ∀ w s e n : ℚ,
      (determine_utm_epsg env source_epsg w s e n true).isOk = true) :
    ∃ r, reproject_line_local_utm env source_epsg cs = .ok r := by
  have h := hres (env.centroid (.lineString cs)).1 (env.centroid (.lineString cs)).2
    (env.centroid (.lineString cs)).1 (env.centroid (.lineString cs)).2
  cases hdet : determine_utm_epsg env source_epsg (env.centroid (.lineString cs)).1
      (env.centroid (.lineString cs)).2 (env.centroid (.lineString cs)).1
      (env.centroid (.lineString cs)).2 true with
  | error e => rw [hdet] at h; simp [Except.isOk, Except.toBool] at h
  | ok t =>
    exact ⟨cs.map (env.apply (.fromEpsg source_epsg t)),
      by simp [reproject_line_local_utm, hdet, Bind.bind, Except.bind]⟩

/-- C9: on the zero-area kinds (Point, LineString, MultiPoint,
MultiLineString), `calculate_area_geometry` returns exactly 0, and
`calculate_area_geometry_local_utm` returns a successful 0 whenever the
environment's UTM resolution succeeds (spec section 4.5 propagates resolver
failures, which cannot arise on the fixed-target mode). -/
theorem calculate_area_zero_area_kinds (env : GeoEnv) (g : Geometry)
    (source_epsg target_epsg : Int)
    (hz : g.zero_area_kind = true)
    (hres : ∀ w s e n : ℚ,
      (determine_utm_epsg env source_epsg w s e n true).isOk = true) :
    calculate_area_geometry env g source_epsg target_epsg = 0 ∧
    calculate_area_geometry_local_utm env g source_epsg = .ok 0 := by
  cases g with
  | point p =>
    refine ⟨by simp [calculate_area_geometry, reproject_geometry, shapely_area], ?_⟩
    obtain ⟨r, hr⟩ := reproject_point_local_utm_ok env source_epsg p hres
    simp [calculate_area_geometry_local_utm, reproject_geometry_local_utm, hr,
      shapely_area, Bind.bind, Except.bind]
  | lineString cs =>
    refine ⟨by simp [calculate_area_geometry, reproject_geometry, shapely_area], ?_⟩
    obtain ⟨r, hr⟩ := reproject_line_local_utm_ok env source_epsg cs hres
    simp [calculate_area_geometry_local_utm, reproject_geometry_local_utm, hr,
      shapely_area, Bind.bind, Except.bind]
  | multiPoint ps =>
    refine ⟨by simp [calculate_area_geometry, reproject_geometry, shapely_area], ?_⟩
    obtain ⟨rs, hrs⟩ := mapE_ok_of_forall (reproject_point_local_utm env source_epsg) ps
      fun p _ => reproject_point_local_utm_ok env source_epsg p hres
    simp [calculate_area_geometry_local_utm, reproject_geometry_local_utm, hrs,
      shapely_area, Bind.bind, Except.bind]
  | multiLineString ls =>
    refine ⟨by simp [calculate_area_geometry, reproject_geometry, shapely_area], ?_⟩
    obtain ⟨rs, hrs⟩ := mapE_ok_of_forall (reproject_line_local_utm env source_epsg) ls
      fun cs _ => reproject_line_local_utm_ok env source_epsg cs hres
    simp [calculate_area_geometry_local_utm, reproject_geometry_local_utm, hrs,
      shapely_area, Bind.bind, Except.bind]
  | linearRing cs => simp [Geometry.zero_area_kind] at hz
  | polygon e h => simp [Geometry.zero_area_kind] at hz
  | multiPolygon qs => simp [Geometry.zero_area_kind] at hz
  | geometryCollection gs => simp [Geometry.zero_area_kind] at hz

/-- C9 witness: both area modes return a successful 0 on a concrete Point
under the all-resolving sample environment. -/
theorem calculate_area_zero_area_kinds_witness :
    calculate_area_geometry sampleEnv (.point (8, 50)) 4326 9822 = 0 ∧
    calculate_area_geometry_local_utm sampleEnv (.point (8, 50)) 4326 = .ok 0 := by
  apply calculate_area_zero_area_kinds
  · rfl
  · intro w s e n
    rfl

/-- A successful run of reproject.py's MultiPolygon comprehension projects
the members pointwise through `project_geometry_local_utm`. -/
theorem projectEachPoly_ok (env : GeoEnv) (source_epsg : Int) :
    ∀ (qs : List PolyData) (gs : List Geometry),
      projectEachPoly env source_epsg qs = .ok gs →
      gs.length = qs.length ∧
      ∀ (i : ℕ) (q : PolyData) (g : Geometry), qs[i]? = some q → gs[i]? = some g →
        project_geometry_local_utm env source_epsg (.polygon q.1 q.2) = .ok g := by
  intro qs
  induction qs with
  | nil =>
    intro gs h
    simp only [projectEachPoly] at h
    cases h
    refine ⟨rfl, ?_⟩
    intro i q g hq hg
    simp at hq
  | cons q0 qs ih =>
    obtain ⟨e0, h0⟩ := q0
    intro gs h
    simp only [projectEachPoly, Bind.bind, Except.bind] at h
    cases hr : project_geometry_local_utm env source_epsg (.polygon e0 h0) with
    | error err => rw [hr] at h; simp at h
    | ok r =>
      rw [hr] at h
      cases hw : projectEachPoly env source_epsg qs with
      | error err => rw [hw] at h; simp at h
      | ok rs =>
        rw [hw] at h
        simp only [Except.ok.injEq] at h
        subst h
        obtain ⟨hlen, hpt⟩ := ih rs hw
        refine ⟨by simp [hlen], ?_⟩
        intro i q g hq hg
        cases i with
        | zero =>
          simp only [List.getElem?_cons_zero, Option.some.injEq] at hq hg
          subst hq
          subst hg
          exact hr
        | succ j =>
          simp only [List.getElem?_cons_succ] at hq hg
          exact hpt j q g hq hg

/-- A successful run of the shapely `MultiPolygon` component extraction means
every input geometry was the corresponding Polygon. -/
theorem asPolys_ok :
    ∀ (gs : List Geometry) (rs : List PolyData), asPolys gs = .ok rs →
      rs.length = gs.length ∧
      ∀ (i : ℕ) (r : PolyData), rs[i]? = some r →
        gs[i]? = some (.polygon r.1 r.2) := by
  intro gs
  induction gs with
  | nil =>
    intro rs h
    simp only [asPolys] at h
    cases h
    refine ⟨rfl, ?_⟩
    intro i r hr
    simp at hr
  | cons g gs ih =>
    intro rs h
    cases g with
    | point p => simp [asPolys] at h
    | lineString cs => simp [asPolys] at h
    | linearRing cs => simp [asPolys] at h
    | multiPoint ps => simp [asPolys] at h
    | multiLineString ls => simp [asPolys] at h
    | multiPolygon mq => simp [asPolys] at h
    | geometryCollection gg => simp [asPolys] at h
    | polygon e hh =>
      simp only [asPolys, Bind.bind, Except.bind] at h
      cases ha : asPolys gs with
      | error err => rw [ha] at h; simp at h
      | ok qs =>
        rw [ha] at h
        simp only [Except.ok.injEq] at h
        subst h
        obtain ⟨hlen, hpt⟩ := ih qs ha
        refine ⟨by simp [hlen], ?_⟩
        intro i r hr
        cases i with
        | zero =>
          simp only [List.getElem?_cons_zero, Option.some.injEq] at hr
          subst hr
          simp
        | succ j =>
          simp only [List.getElem?_cons_succ] at hr ⊢
          exact hpt j r hr

/-- project.py's Polygon dispatch goes to `_project_polygon_local_utm`. -/
theorem project_py_polygon_dispatch (env : GeoEnv) (source_epsg : Int)
    (shell : List Coord) (holes : List (List Coord)) :
    project_py_geometry_local_utm env source_epsg (.polygon shell holes) =
      _project_polygon_local_utm env source_epsg shell holes := by
  simp [project_py_geometry_local_utm]

/-- A successful run of project.py's MultiPolygon comprehension projects the
members pointwise through `_project_polygon_local_utm`. -/
theorem projectPyEachPoly_ok (env : GeoEnv) (source_epsg : Int) :
    ∀ (qs : List PolyData) (gs : List Geometry),
      projectPyEachPoly env source_epsg qs = .ok gs →
      gs.length = qs.length ∧
      ∀ (i : ℕ) (q : PolyData) (g : Geometry), qs[i]? = some q → gs[i]? = some g →
        _project_polygon_local_utm env source_epsg q.1 q.2 = .ok g := by
  intro qs
  induction qs with
  | nil =>
    intro gs h
    simp only [projectPyEachPoly] at h
    cases h
    refine ⟨rfl, ?_⟩
    intro i q g hq hg
    simp at hq
  | cons q0 qs ih =>
    obtain ⟨e0, h0⟩ := q0
    intro gs h
    simp only [projectPyEachPoly, Bind.bind, Except.bind] at h
    cases hr : _project_polygon_local_utm env source_epsg e0 h0 with
    | error err => rw [hr] at h; simp at h
    | ok r =>
      rw [hr] at h
      cases hw : projectPyEachPoly env source_epsg qs with
      | error err => rw [hw] at h; simp at h
      | ok rs =>
        rw [hw] at h
        simp only [Except.ok.injEq] at h
        subst h
        obtain ⟨hlen, hpt⟩ := ih rs hw
        refine ⟨by simp [hlen], ?_⟩
        intro i q g hq hg
        cases i with
        | zero =>
          simp only [List.getElem?_cons_zero, Option.some.injEq] at hq hg
          subst hq
          subst hg
          exact hr
        | succ j =>
          simp only [List.getElem?_cons_succ] at hq hg
          exact hpt j q g hq hg

/-- C8: when either local-UTM dispatcher succeeds on a MultiPolygon, the
result is a MultiPolygon of the same length whose members are exactly what
the same dispatcher produces on each member Polygon alone (each member
re-derives its own centroid and target CRS; no CRS decision is shared). -/
theorem multipolygon_members_match_standalone (env : GeoEnv)
    (source_epsg : Int) (qs : List PolyData) :
    (∀ g', project_geometry_local_utm env source_epsg (.multiPolygon qs) = .ok g' →
      ∃ rs : List PolyData, g' = .multiPolygon rs ∧ rs.length = qs.length ∧
        ∀ (i : ℕ) (q r : PolyData), qs[i]? = some q → rs[i]? = some r →
          project_geometry_local_utm env source_epsg (.polygon q.1 q.2) =
            .ok (.polygon r.1 r.2)) ∧
    (∀ g', project_py_geometry_local_utm env source_epsg (.multiPolygon qs) = .ok g' →
      ∃ rs : List PolyData, g' = .multiPolygon rs ∧ rs.length = qs.length ∧
        ∀ (i : ℕ) (q r : PolyData), qs[i]? = some q → rs[i]? = some r →
          project_py_geometry_local_utm env source_epsg (.polygon q.1 q.2) =
            .ok (.polygon r.1 r.2)) := by
  constructor
  · intro g' h
    simp only [project_geometry_local_utm, Bind.bind, Except.bind] at h
    cases hdet : determine_utm_epsg env source_epsg
        (env.centroid (.multiPolygon qs)).1 (env.centroid (.multiPolygon qs)).2
        (env.centroid (.multiPolygon qs)).1 (env.centroid (.multiPolygon qs)).2
        true with
    | error err => rw [hdet] at h; simp at h
    | ok t =>
      rw [hdet] at h
      cases hw : projectEachPoly env source_epsg qs with
      | error err => rw [hw] at h; simp at h
      | ok gs =>
        rw [hw] at h
        simp only [mkMultiPolygon, Bind.bind, Except.bind] at h
        cases ha : asPolys gs with
        | error err => rw [ha] at h; simp at h
        | ok rs =>
          rw [ha] at h
          simp only [Except.ok.injEq] at h
          subst h
          obtain ⟨hwlen, hwpt⟩ := projectEachPoly_ok env source_epsg qs gs hw
          obtain ⟨halen, hapt⟩ := asPolys_ok gs rs ha
          refine ⟨rs, rfl, by omega, ?_⟩
          intro i q r hq hr
          exact hwpt i q (.polygon r.1 r.2) hq (hapt i r hr)
  · intro g' h
    simp only [project_py_geometry_local_utm, Bind.bind, Except.bind] at h
    cases hw : projectPyEachPoly env source_epsg qs with
    | error err => rw [hw] at h; simp at h
    | ok gs =>
      rw [hw] at h
      simp only [mkMultiPolygon, Bind.bind, Except.bind] at h
      cases ha : asPolys gs with
      | error err => rw [ha] at h; simp at h
      | ok rs =>
        rw [ha] at h
        simp only [Except.ok.injEq] at h
        subst h
        obtain ⟨hwlen, hwpt⟩ := projectPyEachPoly_ok env source_epsg qs gs hw
        obtain ⟨halen, hapt⟩ := asPolys_ok gs rs ha
        refine ⟨rs, rfl, by omega, ?_⟩
        intro i q r hq hr
        rw [project_py_polygon_dispatch]
        exact hwpt i q (.polygon r.1 r.2) hq (hapt i r hr)


/-- C8 witness: under the sample environment the dispatcher succeeds on the
two-member MultiPolygon and each member matches its standalone
reprojection. -/
theorem multipolygon_members_match_standalone_witness :
    ∃ rs : List PolyData,
      (Geometry.multiPolygon twoPolyPayload) = .multiPolygon rs ∧
      rs.length = twoPolyPayload.length ∧
      ∀ (i : ℕ) (q r : PolyData), twoPolyPayload[i]? = some q → rs[i]? = some r →
        project_geometry_local_utm sampleEnv 4326 (.polygon q.1 q.2) =
          .ok (.polygon r.1 r.2) := by
  have h : project_geometry_local_utm sampleEnv 4326 (.multiPolygon twoPolyPayload) =
      .ok (.multiPolygon twoPolyPayload) := by
    simp [project_geometry_local_utm, projectEachPoly, determine_utm_epsg,
      _project_polygon, create_transformer, is_utm_epsg, mkMultiPolygon, asPolys,
      sampleEnv, Bind.bind, Except.bind, twoPolyPayload]
  exact (multipolygon_members_match_standalone sampleEnv 4326 twoPolyPayload).1
    (.multiPolygon twoPolyPayload) h
